import Mathlib

/-!
Verification of the reply-orchestration loop of a Gmail auto-reply bot
(`main.py`). The program is shallowly embedded: pure helpers become Lean
functions, the external collaborators (Gmail API, chat-completion API,
clock, random persona draw) become explicit oracle inputs, and the main
loop becomes both a fold over candidate lists (for counting properties)
and a small-step state machine with explicit shutdown checkpoints (for
phase and latency properties).
-/

set_option maxRecDepth 8000

namespace GmailBot

/-- A CSV file is a list of rows, each row a list of string fields. The
ledger file on disk is modelled as `Option Csv`, where `none` is an absent
file. -/
abbrev Csv := List (List String)

/-- ASCII lowering of one character, modelling Python `str.lower` on the
ASCII header names the code compares. -/
def lowerChar (c : Char) : Char :=
  if 65 ≤ c.toNat && c.toNat ≤ 90 then Char.ofNat (c.toNat + 32) else c

/-- Models Python `str.lower` (ASCII range). -/
def strLower (s : String) : String := String.mk (s.data.map lowerChar)

/-- The whitespace characters Python `str.strip` removes. -/
def pySpace (c : Char) : Bool :=
  c == ' ' || c == '\t' || c == '\n' || c == '\r' || c == '\x0b' || c == '\x0c'

/-- Models Python `str.strip`: drop leading and trailing whitespace. -/
def pyStrip (s : String) : String :=
  String.mk (((s.data.dropWhile pySpace).reverse.dropWhile pySpace).reverse)

/-- Models Python `str.endswith`. -/
def strEndsWith (s suffixStr : String) : Bool :=
  suffixStr.data.isSuffixOf s.data

/-- Whether a string is empty (Python falsiness of a string). -/
def strIsEmpty (s : String) : Bool := s.data.isEmpty

/-- A persona profile as parsed from a character JSON file. An `Option`
field models a key that may be absent from the JSON object (Python
`dict.get` returns `None` for a missing key). -/
structure Character where
  name : Option String
  style : Option String
  randomFacts : List String
  quirks : List String
deriving DecidableEq

/-- A fetched Gmail message, reduced to the header list of its payload
(the only part `main.py` reads: the From header; the code never reads the
Subject header). -/
structure Msg where
  headers : List (String × String)
deriving DecidableEq

/-- Embeds `get_sender` (main.py lines 90-95): the first header whose name
lowercases to "from" yields `parseaddr(value)[1]`, otherwise `None`. The
`email.utils.parseaddr` library call is external and passed in as `pa`. -/
def get_sender (pa : String → String) (msg : Msg) : Option String :=
  match msg.headers.find? (fun h => strLower h.fst == "from") with
  | some h => some (pa h.snd)
  | none => none

/-- The header row `save_replied_sender` writes on file creation
(main.py line 109). -/
def csvHeaderRow : List String :=
  ["sender_email", "timestamp", "character_used", "fallback_used"]

/-- Embeds `load_replied_senders` (main.py lines 97-102): an absent file
gives the empty set; otherwise the first row (the header) is skipped and
the first field of every nonempty remaining row is collected. The Python
set is modelled as a list queried only through membership. -/
def load_replied_senders : Option Csv → List String
  | none => []
  | some rows => (rows.drop 1).filterMap List.head?

/-- Embeds `save_replied_sender` (main.py lines 104-115): appends one data
row; if the file did not exist it is created and the header row is written
first. The `datetime.now` timestamp is external and passed in as
`timestamp`. -/
def save_replied_sender (file : Option Csv) (sender character_name : String)
    (used_fallback : Bool) (timestamp : String) : Option Csv :=
  let row := [sender, timestamp, character_name,
              if used_fallback then "Yes" else "No"]
  match file with
  | none => some [csvHeaderRow, row]
  | some rows => some (rows ++ [row])

/-- One entry of the characters directory: its filename and the outcome of
`json.load` on it (`none` models a file that fails to parse or read). -/
structure PersonaFile where
  filename : String
  parsed : Option Character
deriving DecidableEq

/-- The accumulator loop inside `load_characters`: Python appends each
parsed .json file to `characters`; a `json.load` exception propagates
immediately (there is no try/except in `load_characters`), modelled by
`Except.error` carrying the offending filename. -/
def load_characters_go : List Character → List PersonaFile →
    Except String (List Character)
  | acc, [] => Except.ok acc
  | acc, f :: rest =>
    if strEndsWith f.filename ".json" then
      match f.parsed with
      | some ch => load_characters_go (acc ++ [ch]) rest
      | none => Except.error f.filename
    else load_characters_go acc rest

/-- Embeds `load_characters` (main.py lines 117-124): an absent directory
gives the empty list, otherwise every file whose name ends in ".json" is
`json.load`-ed and appended in directory order. -/
def load_characters (dir : Option (List PersonaFile)) :
    Except String (List Character) :=
  match dir with
  | none => Except.ok []
  | some files => load_characters_go [] files

/-- Embeds the default-persona substitution at main.py lines 165-167: an
empty character list is replaced by the synthetic default persona. -/
def defaultCharacters (cs : List Character) : List Character :=
  if cs.isEmpty then
    [{ name := some "Default", style := some "friendly",
       randomFacts := [], quirks := [] }]
  else cs

/-- Outcome of the external chat-completion call
(`client.chat.completions.create`): the content string on success, or an
exception. -/
inductive CompletionResult where
  | ok (content : String)
  | err
deriving DecidableEq

/-- Embeds `generate_ai_reply` (main.py lines 133-142): on API success the
message content is whitespace-stripped and returned; any exception is
caught, logged, and `None` is returned. The prompt built at lines 181-190
only feeds the external generator, whose outcome is the oracle here. -/
def generate_ai_reply : CompletionResult → Option String
  | CompletionResult.ok content => some (pyStrip content)
  | CompletionResult.err => none

/-- Python truthiness of an optional string: `None` and the empty string
are falsy (`if not sender`, `if not ai_reply`). -/
def strOptFalsy : Option String → Bool
  | none => true
  | some s => strIsEmpty s

/-- The MIME message handed to the Gmail send call. -/
structure OutgoingEmail where
  toAddr : String
  subject : String
  body : String
  fromAddr : String
deriving DecidableEq

/-- Embeds the message construction in `send_reply` (main.py lines
144-150): the persona signature is appended to the body, the subject is
wrapped as `Re: <subject> - OOO Automated Reply`, and the From address is
the hardcoded constant. The network send itself (line 151) is external;
its outcome is an oracle of the candidate. -/
def send_reply_build (to_email subject message_body : String)
    (character : Character) : OutgoingEmail :=
  { toAddr := to_email
    subject := "Re: " ++ subject ++ " - OOO Automated Reply"
    body := message_body ++ "\n\n-" ++
            character.name.getD "Automated System" ++ "."
    fromAddr := "secure.test@debagnik.in" }

/-- The configuration values the loop reads: REPLY_ONCE, the authenticated
mailbox address, the fallback message, and CHECK_INTERVAL. -/
structure Config where
  replyOnce : Bool
  myEmail : String
  fallbackMessage : String
  checkInterval : Nat
deriving DecidableEq

/-- The mutable loop state: the in-memory `replied_senders` set (a list
queried through membership) and the `replied_senders.csv` file. -/
structure LoopState where
  replied : List String
  csvFile : Option Csv
deriving DecidableEq

/-- One unread message together with the external outcomes its processing
consumes: the message fetched at line 173, the `random.choice` persona
draw, the completion outcome, whether the Gmail send at line 151 succeeds,
and the timestamp written to the CSV row. -/
structure Candidate where
  msg : Msg
  character : Character
  completion : CompletionResult
  sendOk : Bool
  ts : String
deriving DecidableEq

/-- A successful send as observed at line 151, with the fallback flag
recorded for it in the ledger. -/
structure SendEvent where
  email : OutgoingEmail
  sender : String
  usedFallback : Bool
deriving DecidableEq

/-- Embeds the per-candidate body of the main loop (main.py lines
173-204). Returns the new loop state, the send events produced (zero or
one), and whether the Gmail send raised — in which case the exception
propagates to the iteration-level handler, so the caller must abort the
rest of the iteration. Mirrors the source order: resolve the sender; skip
on falsy sender, reply-once membership, or self; generate with fallback
substitution; send; only after a successful send add the sender to the
in-memory set and append the CSV row. -/
def processCandidate (cfg : Config) (pa : String → String) (st : LoopState)
    (c : Candidate) : LoopState × List SendEvent × Bool :=
  match get_sender pa c.msg with
  | none => (st, [], false)
  | some sender =>
    if strIsEmpty sender || (cfg.replyOnce && st.replied.contains sender) ||
        sender == cfg.myEmail then
      (st, [], false)
    else
      let ai_reply := generate_ai_reply c.completion
      let used_fallback := strOptFalsy ai_reply
      let body := if strOptFalsy ai_reply then cfg.fallbackMessage
                  else ai_reply.getD ""
      let email := send_reply_build sender "Automated Reply" body c.character
      if c.sendOk then
        ({ replied := sender :: st.replied,
           csvFile := save_replied_sender st.csvFile sender
                        (c.character.name.getD "") used_fallback c.ts },
         [{ email := email, sender := sender, usedFallback := used_fallback }],
         false)
      else
        (st, [], true)

/-- The `for msg_meta in messages` loop (lines 172-204): candidates are
processed in order; a send failure propagates, dropping the remaining
candidates of the iteration. -/
def processMessages (cfg : Config) (pa : String → String) :
    LoopState → List Candidate → LoopState × List SendEvent × Bool
  | st, [] => (st, [], false)
  | st, c :: rest =>
    let r := processCandidate cfg pa st c
    if r.2.2 then (r.1, r.2.1, true)
    else
      let r' := processMessages cfg pa r.1 rest
      (r'.1, r.2.1 ++ r'.2.1, r'.2.2)

/-- Outcome of the `get_unread_messages` query of one iteration: the
candidate list (each already fetched, with its oracles), or the
exception path. -/
inductive QueryResult where
  | ok (cands : List Candidate)
  | fail
deriving DecidableEq

/-- One iteration of the while loop, data view: a failed query raises into
the iteration-level `except` handler (no candidates processed); the
returned flag records whether the error path (`except Exception`) was
taken. -/
def runIteration (cfg : Config) (pa : String → String) (st : LoopState) :
    QueryResult → LoopState × List SendEvent × Bool
  | QueryResult.fail => (st, [], true)
  | QueryResult.ok cands => processMessages cfg pa st cands

/-- The while loop, data view: one `QueryResult` per iteration; both the
normal path and the error path continue with the next iteration. The
shutdown flag only decides how many iterations run, which is covered by
quantifying over the iteration list. -/
def runLoop (cfg : Config) (pa : String → String) :
    LoopState → List QueryResult → LoopState × List SendEvent
  | st, [] => (st, [])
  | st, q :: qs =>
    let r := runIteration cfg pa st q
    let rest := runLoop cfg pa r.1 qs
    (rest.1, r.2.1 ++ rest.2)

/-- One full process lifetime over a given ledger file: `main` reloads the
in-memory set from the CSV (line 161) and then runs the loop. Returns the
final CSV file and the sends performed. -/
def runFromCsv (cfg : Config) (pa : String → String) (csv : Option Csv)
    (qs : List QueryResult) : Option Csv × List SendEvent :=
  let r := runLoop cfg pa { replied := load_replied_senders csv, csvFile := csv } qs
  (r.1.csvFile, r.2)

/-- A sequence of process lifetimes, each restart reloading the ledger
left by the previous one. -/
def runRestarts (cfg : Config) (pa : String → String) :
    Option Csv → List (List QueryResult) → Option Csv × List SendEvent
  | csv, [] => (csv, [])
  | csv, qs :: rest =>
    let r := runFromCsv cfg pa csv qs
    let r' := runRestarts cfg pa r.1 rest
    (r'.1, r.2 ++ r'.2)

/-- Number of sends addressed to `S` in an event list. -/
def sendsTo (S : String) (evs : List SendEvent) : Nat :=
  (evs.filter (fun e => e.sender == S)).length

/-- The data rows of the ledger file (everything after the header row). -/
def dataRows : Option Csv → Csv
  | none => []
  | some rows => rows.drop 1

/-- Number of ledger data rows whose sender field is `S`. -/
def rowsFor (S : String) (file : Option Csv) : Nat :=
  ((dataRows file).filter (fun r => r.head? == some S)).length

/-- The arguments of one `save_replied_sender` call. -/
structure RecordOp where
  sender : String
  characterName : String
  usedFallback : Bool
  timestamp : String
deriving DecidableEq

/-- A sequence of `save_replied_sender` calls applied to a ledger file. -/
def recordAll : Option Csv → List RecordOp → Option Csv
  | file, [] => file
  | file, op :: rest =>
    recordAll (save_replied_sender file op.sender op.characterName
                op.usedFallback op.timestamp) rest

/-- Spec-side reading, used only to state the subject claim: the original
subject of a message, read from its Subject header. The code never reads
this header. -/
def specOriginalSubject (msg : Msg) : Option String :=
  (msg.headers.find? (fun h => strLower h.fst == "subject")).map Prod.snd

/-- The control phases of the main loop (lines 169-216), with the shutdown
checkpoints made explicit: `boundary` is the `while not shutdown_requested`
check, `processing` walks the candidate list, `sleeping n` is the
responsive sleep with `n` remaining one-second ticks (the flag is sampled
before each tick, lines 207-210), `errorSleeping` is the uninterruptible
`time.sleep(5)` of the `except` handler (line 216), and `stopped` is
terminal. -/
inductive Phase where
  | boundary
  | processing (pending : List Candidate)
  | sleeping (remaining : Nat)
  | errorSleeping
  | stopped
deriving DecidableEq

/-- The machine state: current phase, the iteration counter indexing the
query schedule, the ledger state, and the sends performed so far. -/
structure MState where
  phase : Phase
  iterIdx : Nat
  ledger : LoopState
  events : List SendEvent
deriving DecidableEq

/-- One transition of the main loop machine. `flag` is the value of
`shutdown_requested` sampled at this step; the signal handler may set it
at any time, so it is an arbitrary input. The flag is consulted only at
the two checkpoints present in the source: the while condition and the
head of each sleep tick. Candidate processing and the error delay never
read it. -/
def step (cfg : Config) (pa : String → String)
    (schedule : Nat → QueryResult) (flag : Bool) (s : MState) : MState :=
  match s.phase with
  | Phase.stopped => s
  | Phase.boundary =>
    if flag then { s with phase := Phase.stopped }
    else
      match schedule s.iterIdx with
      | QueryResult.fail =>
        { s with phase := Phase.errorSleeping, iterIdx := s.iterIdx + 1 }
      | QueryResult.ok cands =>
        { s with phase := Phase.processing cands, iterIdx := s.iterIdx + 1 }
  | Phase.processing [] => { s with phase := Phase.sleeping cfg.checkInterval }
  | Phase.processing (c :: rest) =>
    let r := processCandidate cfg pa s.ledger c
    { s with
      phase := if r.2.2 then Phase.errorSleeping else Phase.processing rest,
      ledger := r.1,
      events := s.events ++ r.2.1 }
  | Phase.sleeping 0 => { s with phase := Phase.boundary }
  | Phase.sleeping (n + 1) =>
    if flag then { s with phase := Phase.boundary }
    else { s with phase := Phase.sleeping n }
  | Phase.errorSleeping => { s with phase := Phase.boundary }

/-! ## Concrete fixtures used by witnesses and counterexamples -/

/-- A configuration with the defaults of the source: reply-once on,
interval 30, with a short fallback message. -/
def cfgEx : Config :=
  { replyOnce := true, myEmail := "me@x.com", fallbackMessage := "Hello",
    checkInterval := 30 }

/-- A persona with a name. -/
def chEx : Character :=
  { name := some "Bob", style := some "cool", randomFacts := [], quirks := [] }

/-- Fresh loop state: empty set, absent ledger file. -/
def stEx : LoopState := { replied := [], csvFile := none }

/-- A message from bob with an original subject. -/
def msgEx : Msg :=
  { headers := [("From", "bob@x.com"), ("Subject", "Hello there")] }

/-- Candidate whose completion call raises and whose send succeeds. -/
def candErrEx : Candidate :=
  { msg := msgEx, character := chEx, completion := CompletionResult.err,
    sendOk := true, ts := "t1" }

/-- Candidate whose completion succeeds with whitespace only. -/
def candBlankEx : Candidate :=
  { msg := msgEx, character := chEx, completion := CompletionResult.ok "   ",
    sendOk := true, ts := "t3" }

/-- Candidate whose completion succeeds with real text. -/
def candOkEx : Candidate :=
  { msg := msgEx, character := chEx,
    completion := CompletionResult.ok " Sure thing ", sendOk := true,
    ts := "t4" }

/-- Candidate whose Gmail send raises. -/
def candFailEx : Candidate :=
  { msg := msgEx, character := chEx, completion := CompletionResult.err,
    sendOk := false, ts := "t5" }

/-! ## Ledger lemmas and claim C7 -/

/-- The CSV data row one record operation writes. -/
def rowOfOp (op : RecordOp) : List String :=
  [op.sender, op.timestamp, op.characterName,
   if op.usedFallback then "Yes" else "No"]

lemma recordAll_some (ops : List RecordOp) :
    ∀ rows : Csv, recordAll (some rows) ops = some (rows ++ ops.map rowOfOp) := by
  induction ops with
  | nil => intro rows; simp [recordAll]
  | cons op rest ih =>
    intro rows
    simp [recordAll, save_replied_sender, ih, rowOfOp]

lemma filterMap_head_rowOfOp (l : List RecordOp) :
    (l.map rowOfOp).filterMap List.head? = l.map RecordOp.sender := by
  induction l with
  | nil => rfl
  | cons op rest ih =>
    have hh : List.head? (rowOfOp op) = some op.sender := rfl
    simp only [List.map_cons, List.filterMap_cons, hh, ih]

lemma load_recordAll_none (ops : List RecordOp) :
    load_replied_senders (recordAll none ops) = ops.map RecordOp.sender := by
  cases ops with
  | nil => rfl
  | cons op rest =>
    have h1 : recordAll none (op :: rest)
        = recordAll (some [csvHeaderRow, rowOfOp op]) rest := by
      simp [recordAll, save_replied_sender, rowOfOp]
    rw [h1, recordAll_some]
    have h2 : load_replied_senders
        (some ([csvHeaderRow, rowOfOp op] ++ List.map rowOfOp rest))
        = ((op :: rest).map rowOfOp).filterMap List.head? := rfl
    rw [h2, filterMap_head_rowOfOp]

/-- C7 (confirmed): starting from an absent ledger file, after any
sequence of record operations, reloading the ledger yields exactly the
membership set of the recorded senders, and an absent file reloads as the
empty set without error. -/
theorem ledger_roundtrip :
    load_replied_senders none = []
    ∧ ∀ (ops : List RecordOp) (s : String),
        (s ∈ load_replied_senders (recordAll none ops)
          ↔ s ∈ ops.map RecordOp.sender) := by
  refine ⟨rfl, fun ops s => ?_⟩
  rw [load_recordAll_none]

/-- Two record operations used to exercise the round-trip. -/
def opsEx : List RecordOp :=
  [{ sender := "bob@x.com", characterName := "Bob", usedFallback := false,
     timestamp := "t1" },
   { sender := "eve@x.com", characterName := "Bob", usedFallback := true,
     timestamp := "t2" }]

/-- Witness for C7 at a concrete operation sequence. -/
theorem ledger_roundtrip_witness :
    "eve@x.com" ∈ load_replied_senders (recordAll none opsEx) :=
  (ledger_roundtrip.2 opsEx "eve@x.com").mpr (by decide)

/-! ## Persona loading: claim C5 -/

lemma load_characters_go_ok (files : List PersonaFile) :
    ∀ acc, (∀ f ∈ files, strEndsWith f.filename ".json" = true → f.parsed ≠ none) →
      load_characters_go acc files
        = Except.ok (acc ++ (files.filter
            (fun f => strEndsWith f.filename ".json")).filterMap
            PersonaFile.parsed) := by
  induction files with
  | nil => intro acc _; simp [load_characters_go]
  | cons f rest ih =>
    intro acc h
    cases hj : strEndsWith f.filename ".json" with
    | true =>
      cases hp : f.parsed with
      | none => exact absurd hp (h f (by simp) hj)
      | some ch =>
        simp [load_characters_go, hj, hp,
          ih (acc ++ [ch]) (fun g hg hgj => h g (by simp [hg]) hgj)]
    | false =>
      simp [load_characters_go, hj,
        ih acc (fun g hg hgj => h g (by simp [hg]) hgj)]

lemma load_characters_go_err (files : List PersonaFile) :
    ∀ acc, (∃ f ∈ files, strEndsWith f.filename ".json" = true ∧ f.parsed = none) →
      ∃ nm, load_characters_go acc files = Except.error nm := by
  induction files with
  | nil => intro acc h; simp at h
  | cons f rest ih =>
    intro acc h
    obtain ⟨g, hg, hgj, hgp⟩ := h
    cases hj : strEndsWith f.filename ".json" with
    | true =>
      cases hp : f.parsed with
      | none => exact ⟨f.filename, by simp [load_characters_go, hj, hp]⟩
      | some ch =>
        rcases List.mem_cons.mp hg with rfl | hg'
        · rw [hp] at hgp; exact absurd hgp (by simp)
        · obtain ⟨nm, hnm⟩ := ih (acc ++ [ch]) ⟨g, hg', hgj, hgp⟩
          exact ⟨nm, by simp [load_characters_go, hj, hp, hnm]⟩
    | false =>
      rcases List.mem_cons.mp hg with rfl | hg'
      · rw [hj] at hgj; exact absurd hgj (by simp)
      · obtain ⟨nm, hnm⟩ := ih acc ⟨g, hg', hgj, hgp⟩
        exact ⟨nm, by simp [load_characters_go, hj, hnm]⟩

/-- C5 (amended): persona loading reads the .json entries of the
directory in order; non-.json filenames are ignored. If every .json entry
parses, the parsed personas are returned in order; but if any .json entry
is malformed or unreadable, `json.load` raises and the error propagates
out of `load_characters` uncaught (there is no skip and no warning), which
aborts startup since the call at main.py line 162 sits outside any
try/except. -/
theorem load_characters_spec (files : List PersonaFile) :
    ((∀ f ∈ files, strEndsWith f.filename ".json" = true → f.parsed ≠ none) →
      load_characters (some files)
        = Except.ok ((files.filter
            (fun f => strEndsWith f.filename ".json")).filterMap
            PersonaFile.parsed))
    ∧ ((∃ f ∈ files, strEndsWith f.filename ".json" = true ∧ f.parsed = none) →
      ∃ nm, load_characters (some files) = Except.error nm) := by
  constructor
  · intro h
    have := load_characters_go_ok files [] h
    simpa [load_characters] using this
  · intro h
    have := load_characters_go_err files [] h
    simpa [load_characters] using this

/-- A characters directory whose first .json entry is malformed and whose
second is well-formed. -/
def badDirEx : List PersonaFile :=
  [{ filename := "bad.json", parsed := none },
   { filename := "good.json", parsed := some chEx }]

/-- C5 counterexample: with one malformed entry, loading raises on that
entry instead of skipping it — no personas (in particular not the
remaining well-formed one) are returned, so startup aborts rather than
continuing. -/
theorem malformed_persona_aborts_cex :
    load_characters (some badDirEx) = Except.error "bad.json"
    ∧ (load_characters (some badDirEx)).toOption = none :=
  ⟨rfl, rfl⟩

/-- Witness for the amended C5 at concrete directories: an all-well-formed
directory loads fully, and a directory with a malformed entry errors. -/
theorem load_characters_spec_witness :
    load_characters (some [{ filename := "good.json", parsed := some chEx }])
        = Except.ok [chEx]
    ∧ ∃ nm, load_characters (some badDirEx) = Except.error nm := by
  constructor
  · exact ((load_characters_spec
      [{ filename := "good.json", parsed := some chEx }]).1 (by decide)).trans rfl
  · exact (load_characters_spec badDirEx).2
      ⟨{ filename := "bad.json", parsed := none }, by decide, by decide⟩

/-! ## Per-candidate processing lemmas and claims C3, C4, C6, C10 -/

/-- String.mk is injective (strings with equal character data are equal). -/
lemma string_data_inj {a b : String} (h : a.data = b.data) : a = b :=
  congrArg String.mk h

/-- Character data of an appended string. -/
lemma string_data_app (a b : String) : (a ++ b).data = a.data ++ b.data := rfl

/-- Shape lemma: an unresolvable sender is skipped with no state change. -/
lemma processCandidate_none (cfg : Config) (pa : String → String)
    (st : LoopState) (c : Candidate) (hs : get_sender pa c.msg = none) :
    processCandidate cfg pa st c = (st, [], false) := by
  simp only [processCandidate, hs]

/-- Shape lemma: a filtered candidate is skipped with no state change. -/
lemma processCandidate_skip (cfg : Config) (pa : String → String)
    (st : LoopState) (c : Candidate) (sender : String)
    (hs : get_sender pa c.msg = some sender)
    (hsk : (strIsEmpty sender || (cfg.replyOnce && st.replied.contains sender) ||
            sender == cfg.myEmail) = true) :
    processCandidate cfg pa st c = (st, [], false) := by
  simp only [processCandidate, hs, hsk]
  rfl

/-- Shape lemma: a failing send leaves the state unchanged, emits nothing,
and raises the abort flag. -/
lemma processCandidate_sendFail (cfg : Config) (pa : String → String)
    (st : LoopState) (c : Candidate) (sender : String)
    (hs : get_sender pa c.msg = some sender)
    (hsk : (strIsEmpty sender || (cfg.replyOnce && st.replied.contains sender) ||
            sender == cfg.myEmail) = false)
    (hsend : c.sendOk = false) :
    processCandidate cfg pa st c = (st, [], true) := by
  simp only [processCandidate, hs, hsk, hsend]
  rfl

/-- Shape lemma: a successful send adds the sender to the in-memory set,
appends the CSV row, and emits one send event. -/
lemma processCandidate_sent (cfg : Config) (pa : String → String)
    (st : LoopState) (c : Candidate) (sender : String)
    (hs : get_sender pa c.msg = some sender)
    (hskip : (strIsEmpty sender || (cfg.replyOnce && st.replied.contains sender) ||
              sender == cfg.myEmail) = false)
    (hsend : c.sendOk = true) :
    processCandidate cfg pa st c =
      ({ replied := sender :: st.replied,
         csvFile := save_replied_sender st.csvFile sender
                      (c.character.name.getD "")
                      (strOptFalsy (generate_ai_reply c.completion)) c.ts },
       [{ email := send_reply_build sender "Automated Reply"
            (if strOptFalsy (generate_ai_reply c.completion) then
              cfg.fallbackMessage
             else (generate_ai_reply c.completion).getD "") c.character,
          sender := sender,
          usedFallback := strOptFalsy (generate_ai_reply c.completion) }],
       false) := by
  simp only [processCandidate, hs, hskip, hsend]
  rfl

/-- A send failure leaves the state untouched and emits nothing; only the
abort flag is raised. -/
lemma processCandidate_fail_inv (cfg : Config) (pa : String → String)
    (st : LoopState) (c : Candidate)
    (h : (processCandidate cfg pa st c).2.2 = true) :
    processCandidate cfg pa st c = (st, [], true) := by
  cases hs : get_sender pa c.msg with
  | none => rw [processCandidate_none cfg pa st c hs] at h; exact absurd h (by simp)
  | some sender =>
    cases hsk : (strIsEmpty sender || (cfg.replyOnce && st.replied.contains sender) ||
        sender == cfg.myEmail) with
    | true =>
      rw [processCandidate_skip cfg pa st c sender hs hsk] at h
      exact absurd h (by simp)
    | false =>
      cases hsend : c.sendOk with
      | true =>
        rw [processCandidate_sent cfg pa st c sender hs hsk hsend] at h
        exact absurd h (by simp)
      | false => exact processCandidate_sendFail cfg pa st c sender hs hsk hsend

/-- Appending via `save_replied_sender` extends the data rows by exactly
the written row, provided the file is not an existing headerless empty
file (files the program itself creates always start with the header). -/
lemma dataRows_save (file : Option Csv) (hwf : file ≠ some [])
    (sender character_name : String) (fb : Bool) (ts : String) :
    dataRows (save_replied_sender file sender character_name fb ts)
      = dataRows file ++
        [[sender, ts, character_name, if fb then "Yes" else "No"]] := by
  cases file with
  | none => simp [save_replied_sender, dataRows]
  | some rows =>
    cases rows with
    | nil => exact absurd rfl hwf
    | cons r rs => simp [save_replied_sender, dataRows]

/-- The event list of a sent fallback candidate, shared helper for the
fallback-shaped conclusions. -/
lemma generation_failure_fallback_sent_core (cfg : Config) (pa : String → String)
    (st : LoopState) (c : Candidate) (sender : String)
    (hs : get_sender pa c.msg = some sender)
    (hskip : (strIsEmpty sender || (cfg.replyOnce && st.replied.contains sender) ||
              sender == cfg.myEmail) = false)
    (hgen : generate_ai_reply c.completion = none)
    (hsend : c.sendOk = true) :
    (processCandidate cfg pa st c).2.1
      = [{ email := { toAddr := sender,
                      subject := "Re: Automated Reply - OOO Automated Reply",
                      body := cfg.fallbackMessage ++ "\n\n-" ++
                              c.character.name.getD "Automated System" ++ ".",
                      fromAddr := "secure.test@debagnik.in" },
           sender := sender, usedFallback := true }] := by
  rw [processCandidate_sent cfg pa st c sender hs hskip hsend, hgen]
  rfl

/-- C3 (amended): if the reply generator fails for a candidate that is
sent, the reply body used is the FallbackMessage verbatim and the sent
message's body is the FallbackMessage with the persona signature line
appended (the claim's "body equals the FallbackMessage verbatim" holds
only before the signature append of `send_reply`), and the appended CSV
row has fallback_used = "Yes". -/
theorem generation_failure_fallback_sent (cfg : Config) (pa : String → String)
    (st : LoopState) (c : Candidate) (sender : String)
    (hs : get_sender pa c.msg = some sender)
    (hskip : (strIsEmpty sender || (cfg.replyOnce && st.replied.contains sender) ||
              sender == cfg.myEmail) = false)
    (hgen : generate_ai_reply c.completion = none)
    (hsend : c.sendOk = true) (hwf : st.csvFile ≠ some []) :
    (processCandidate cfg pa st c).2.1
      = [{ email := { toAddr := sender,
                      subject := "Re: Automated Reply - OOO Automated Reply",
                      body := cfg.fallbackMessage ++ "\n\n-" ++
                              c.character.name.getD "Automated System" ++ ".",
                      fromAddr := "secure.test@debagnik.in" },
           sender := sender, usedFallback := true }]
    ∧ dataRows (processCandidate cfg pa st c).1.csvFile
        = dataRows st.csvFile ++
          [[sender, c.ts, c.character.name.getD "", "Yes"]] := by
  refine ⟨generation_failure_fallback_sent_core cfg pa st c sender hs hskip hgen
    hsend, ?_⟩
  rw [processCandidate_sent cfg pa st c sender hs hskip hsend]
  show dataRows (save_replied_sender st.csvFile sender
      (c.character.name.getD "")
      (strOptFalsy (generate_ai_reply c.completion)) c.ts) = _
  rw [hgen, dataRows_save st.csvFile hwf]
  rfl

/-- Witness for C3 at a concrete candidate whose completion call raises. -/
theorem generation_failure_fallback_sent_witness :
    get_sender id candErrEx.msg = some "bob@x.com"
    ∧ (processCandidate cfgEx id stEx candErrEx).2.1
        = [{ email := { toAddr := "bob@x.com",
                        subject := "Re: Automated Reply - OOO Automated Reply",
                        body := "Hello\n\n-Bob.",
                        fromAddr := "secure.test@debagnik.in" },
             sender := "bob@x.com", usedFallback := true }]
    ∧ dataRows (processCandidate cfgEx id stEx candErrEx).1.csvFile
        = [["bob@x.com", "t1", "Bob", "Yes"]] := by
  have h := generation_failure_fallback_sent cfgEx id stEx candErrEx
    "bob@x.com" (by decide) (by decide) rfl rfl (by decide)
  exact ⟨by decide, h.1, h.2⟩

/-- C3 counterexample: the body of the message actually sent is the
fallback plus the signature line, not the configured FallbackMessage
verbatim. -/
theorem fallback_body_signature_cex :
    (processCandidate cfgEx id stEx candErrEx).2.1.map (fun e => e.email.body)
      = ["Hello\n\n-Bob."]
    ∧ cfgEx.fallbackMessage = "Hello"
    ∧ ("Hello\n\n-Bob." == "Hello") = false := by
  exact ⟨by decide, rfl, by decide⟩

/-- C4 (amended): if the completion call succeeds with text that is
nonempty after stripping, the record has usedFallback = false (CSV "No")
and the reply body used is the generator's stripped output — with the
persona signature appended in the sent message — which differs from the
FallbackMessage-based body whenever the stripped output differs from the
FallbackMessage. -/
theorem generation_success_uses_output (cfg : Config) (pa : String → String)
    (st : LoopState) (c : Candidate) (sender content : String)
    (hs : get_sender pa c.msg = some sender)
    (hskip : (strIsEmpty sender || (cfg.replyOnce && st.replied.contains sender) ||
              sender == cfg.myEmail) = false)
    (hc : c.completion = CompletionResult.ok content)
    (hne : strIsEmpty (pyStrip content) = false)
    (hsend : c.sendOk = true) (hwf : st.csvFile ≠ some []) :
    (processCandidate cfg pa st c).2.1
      = [{ email := { toAddr := sender,
                      subject := "Re: Automated Reply - OOO Automated Reply",
                      body := pyStrip content ++ "\n\n-" ++
                              c.character.name.getD "Automated System" ++ ".",
                      fromAddr := "secure.test@debagnik.in" },
           sender := sender, usedFallback := false }]
    ∧ dataRows (processCandidate cfg pa st c).1.csvFile
        = dataRows st.csvFile ++
          [[sender, c.ts, c.character.name.getD "", "No"]]
    ∧ (pyStrip content ≠ cfg.fallbackMessage →
        (processCandidate cfg pa st c).2.1.map (fun e => e.email.body)
          ≠ [cfg.fallbackMessage ++ "\n\n-" ++
             c.character.name.getD "Automated System" ++ "."]) := by
  have hgen : generate_ai_reply c.completion = some (pyStrip content) := by
    rw [hc]; rfl
  have hfalsy : strOptFalsy (some (pyStrip content)) = false := hne
  have h1 : (processCandidate cfg pa st c).2.1
      = [{ email := { toAddr := sender,
                      subject := "Re: Automated Reply - OOO Automated Reply",
                      body := pyStrip content ++ "\n\n-" ++
                              c.character.name.getD "Automated System" ++ ".",
                      fromAddr := "secure.test@debagnik.in" },
           sender := sender, usedFallback := false }] := by
    rw [processCandidate_sent cfg pa st c sender hs hskip hsend, hgen, hfalsy]
    rfl
  refine ⟨h1, ?_, ?_⟩
  · rw [processCandidate_sent cfg pa st c sender hs hskip hsend]
    show dataRows (save_replied_sender st.csvFile sender
        (c.character.name.getD "")
        (strOptFalsy (generate_ai_reply c.completion)) c.ts) = _
    rw [hgen, hfalsy, dataRows_save st.csvFile hwf]
    rfl
  · intro hne' habs
    rw [h1] at habs
    simp only [List.map_cons, List.map_nil, List.cons.injEq, and_true] at habs
    have hdata : (pyStrip content).data
          ++ ("\n\n-" ++ c.character.name.getD "Automated System" ++ ".").data
        = cfg.fallbackMessage.data
          ++ ("\n\n-" ++ c.character.name.getD "Automated System" ++ ".").data := by
      have h2 := congrArg String.data habs
      simpa [string_data_app, List.append_assoc] using h2
    exact hne' (string_data_inj (List.append_cancel_right hdata))

/-- Witness for C4 at a concrete candidate whose completion returns
" Sure thing ". -/
theorem generation_success_uses_output_witness :
    (processCandidate cfgEx id stEx candOkEx).2.1
      = [{ email := { toAddr := "bob@x.com",
                      subject := "Re: Automated Reply - OOO Automated Reply",
                      body := "Sure thing\n\n-Bob.",
                      fromAddr := "secure.test@debagnik.in" },
           sender := "bob@x.com", usedFallback := false }]
    ∧ dataRows (processCandidate cfgEx id stEx candOkEx).1.csvFile
        = [["bob@x.com", "t4", "Bob", "No"]]
    ∧ (processCandidate cfgEx id stEx candOkEx).2.1.map (fun e => e.email.body)
        ≠ ["Hello\n\n-Bob."] := by
  have h := generation_success_uses_output cfgEx id stEx candOkEx
    "bob@x.com" " Sure thing " (by decide) (by decide) rfl (by decide) rfl
    (by decide)
  exact ⟨h.1, h.2.1, h.2.2 (by decide)⟩

/-- C4 counterexample: the completion call succeeds (the generator
returns a string, reporting no failure), yet because the text strips to
empty the ledger record is written with usedFallback = true, contrary to
the claim's "usedFallback = false". -/
theorem empty_generation_marks_fallback_cex :
    (generate_ai_reply candBlankEx.completion).isSome = true
    ∧ (processCandidate cfgEx id stEx candBlankEx).2.1.map SendEvent.usedFallback
        = [true] := by
  exact ⟨rfl, by decide⟩

/-- C10 (confirmed): a completion result that is empty after stripping is
treated exactly like a generation failure — processing is literally equal
to the exception case — so the FallbackMessage becomes the reply body
(signature then appended on send) and the record has usedFallback =
true. -/
theorem empty_reply_treated_as_failure (cfg : Config) (pa : String → String)
    (st : LoopState) (c : Candidate) (content : String)
    (hc : pyStrip content = "") :
    processCandidate cfg pa st { c with completion := CompletionResult.ok content }
      = processCandidate cfg pa st { c with completion := CompletionResult.err }
    ∧ ∀ sender, get_sender pa c.msg = some sender →
        (strIsEmpty sender || (cfg.replyOnce && st.replied.contains sender) ||
          sender == cfg.myEmail) = false →
        c.sendOk = true →
        (processCandidate cfg pa st
            { c with completion := CompletionResult.ok content }).2.1
          = [{ email := { toAddr := sender,
                          subject := "Re: Automated Reply - OOO Automated Reply",
                          body := cfg.fallbackMessage ++ "\n\n-" ++
                                  c.character.name.getD "Automated System" ++ ".",
                          fromAddr := "secure.test@debagnik.in" },
               sender := sender, usedFallback := true }] := by
  have hempty : strOptFalsy (generate_ai_reply (CompletionResult.ok content))
      = true := by
    show strOptFalsy (some (pyStrip content)) = true
    rw [hc]
    rfl
  have heq : processCandidate cfg pa st
      { c with completion := CompletionResult.ok content }
      = processCandidate cfg pa st { c with completion := CompletionResult.err } := by
    cases hs : get_sender pa c.msg with
    | none =>
      rw [processCandidate_none cfg pa st
          { c with completion := CompletionResult.ok content } hs,
        processCandidate_none cfg pa st
          { c with completion := CompletionResult.err } hs]
    | some sender =>
      cases hsk : (strIsEmpty sender || (cfg.replyOnce && st.replied.contains sender) ||
          sender == cfg.myEmail) with
      | true =>
        rw [processCandidate_skip cfg pa st
            { c with completion := CompletionResult.ok content } sender hs hsk,
          processCandidate_skip cfg pa st
            { c with completion := CompletionResult.err } sender hs hsk]
      | false =>
        cases hsend : c.sendOk with
        | false =>
          rw [processCandidate_sendFail cfg pa st
              { msg := c.msg, character := c.character,
                completion := CompletionResult.ok content, sendOk := false,
                ts := c.ts } sender hs hsk rfl,
            processCandidate_sendFail cfg pa st
              { msg := c.msg, character := c.character,
                completion := CompletionResult.err, sendOk := false,
                ts := c.ts } sender hs hsk rfl]
        | true =>
          rw [processCandidate_sent cfg pa st
              { msg := c.msg, character := c.character,
                completion := CompletionResult.ok content, sendOk := true,
                ts := c.ts } sender hs hsk rfl,
            processCandidate_sent cfg pa st
              { msg := c.msg, character := c.character,
                completion := CompletionResult.err, sendOk := true,
                ts := c.ts } sender hs hsk rfl]
          simp [generate_ai_reply, hc, strOptFalsy,
            show strIsEmpty "" = true from rfl]
  refine ⟨heq, fun sender hs hskip hsend => ?_⟩
  rw [heq]
  exact generation_failure_fallback_sent_core cfg pa st
    { c with completion := CompletionResult.err } sender hs hskip rfl hsend

/-- Witness for C10: a whitespace-only completion behaves like the raised
completion, and the fallback is sent with usedFallback = true. -/
theorem empty_reply_treated_as_failure_witness :
    processCandidate cfgEx id stEx
        { candErrEx with completion := CompletionResult.ok "   " }
      = processCandidate cfgEx id stEx
        { candErrEx with completion := CompletionResult.err }
    ∧ (processCandidate cfgEx id stEx
        { candErrEx with completion := CompletionResult.ok "   " }).2.1
      = [{ email := { toAddr := "bob@x.com",
                      subject := "Re: Automated Reply - OOO Automated Reply",
                      body := "Hello\n\n-Bob.",
                      fromAddr := "secure.test@debagnik.in" },
           sender := "bob@x.com", usedFallback := true }] := by
  have h := empty_reply_treated_as_failure cfgEx id stEx candErrEx "   " (by decide)
  exact ⟨h.1, h.2 "bob@x.com" (by decide) (by decide) rfl⟩

/-- C6 (amended): every reply is sent with the constant subject
`Re: Automated Reply - OOO Automated Reply`; the code passes the literal
string "Automated Reply" to `send_reply` and never reads the original
message's subject. -/
theorem subject_constant (cfg : Config) (pa : String → String)
    (st : LoopState) (c : Candidate) (e : SendEvent)
    (he : e ∈ (processCandidate cfg pa st c).2.1) :
    e.email.subject = "Re: Automated Reply - OOO Automated Reply" := by
  cases hs : get_sender pa c.msg with
  | none => rw [processCandidate_none cfg pa st c hs] at he; simp at he
  | some sender =>
    cases hsk : (strIsEmpty sender || (cfg.replyOnce && st.replied.contains sender) ||
        sender == cfg.myEmail) with
    | true => rw [processCandidate_skip cfg pa st c sender hs hsk] at he; simp at he
    | false =>
      cases hsend : c.sendOk with
      | false =>
        rw [processCandidate_sendFail cfg pa st c sender hs hsk hsend] at he
        simp at he
      | true =>
        rw [processCandidate_sent cfg pa st c sender hs hsk hsend] at he
        simp only [List.mem_singleton] at he
        rw [he]
        rfl

/-- Witness for C6 at a concrete processed candidate. -/
theorem subject_constant_witness :
    ({ email := { toAddr := "bob@x.com",
                  subject := "Re: Automated Reply - OOO Automated Reply",
                  body := "Hello\n\n-Bob.",
                  fromAddr := "secure.test@debagnik.in" },
       sender := "bob@x.com", usedFallback := true } : SendEvent).email.subject
      = "Re: Automated Reply - OOO Automated Reply" :=
  subject_constant cfgEx id stEx candErrEx _ (by decide)

/-- C6 counterexample: a message whose original subject is "Hello there"
is answered with the constant subject, not with
`Re: Hello there - OOO Automated Reply` as the claim requires. -/
theorem subject_ignores_original_cex :
    specOriginalSubject msgEx = some "Hello there"
    ∧ (processCandidate cfgEx id stEx candErrEx).2.1.map (fun e => e.email.subject)
        = ["Re: Automated Reply - OOO Automated Reply"]
    ∧ ("Re: Automated Reply - OOO Automated Reply"
        == "Re: Hello there - OOO Automated Reply") = false := by
  exact ⟨by decide, by decide, by decide⟩


/-! ## Reply-once counting: claim C1 -/

lemma sendsTo_nil (S : String) : sendsTo S [] = 0 := rfl

lemma sendsTo_append (S : String) (l₁ l₂ : List SendEvent) :
    sendsTo S (l₁ ++ l₂) = sendsTo S l₁ + sendsTo S l₂ := by
  simp [sendsTo, List.filter_append]

lemma sendsTo_singleton (S : String) (e : SendEvent) :
    sendsTo S [e] = if e.sender == S then 1 else 0 := by
  cases hb : e.sender == S <;> simp [sendsTo, List.filter_cons, hb]

lemma mem_filterMap_head_iff (S : String) :
    ∀ l : Csv, S ∈ l.filterMap List.head? ↔
      1 ≤ (l.filter (fun r => r.head? == some S)).length := by
  intro l
  induction l with
  | nil => simp
  | cons r rs ih =>
    cases r with
    | nil => simpa [List.filterMap_cons, List.filter_cons] using ih
    | cons a as =>
      by_cases ha : a = S
      · subst ha
        simp [List.filterMap_cons, List.filter_cons]
      · have hb : ((a :: as : List String).head? == some S) = false := by
          simpa using ha
        simp [List.filterMap_cons, List.filter_cons, hb, ha, Ne.symm ha, ih]

/-- A sender has a ledger row exactly when reloading yields it. -/
lemma mem_load_iff (S : String) (file : Option Csv) :
    S ∈ load_replied_senders file ↔ 1 ≤ rowsFor S file := by
  cases file with
  | none => simp [load_replied_senders, rowsFor, dataRows]
  | some rows =>
    simpa [load_replied_senders, rowsFor, dataRows] using
      mem_filterMap_head_iff S (rows.drop 1)

lemma save_ne_emptyFile (file : Option Csv) (sender character_name : String)
    (fb : Bool) (ts : String) :
    save_replied_sender file sender character_name fb ts ≠ some [] := by
  cases file <;> simp [save_replied_sender]

lemma rowsFor_save (S : String) (file : Option Csv) (hwf : file ≠ some [])
    (sender character_name : String) (fb : Bool) (ts : String) :
    rowsFor S (save_replied_sender file sender character_name fb ts)
      = rowsFor S file + (if sender == S then 1 else 0) := by
  have hrow : (([sender, ts, character_name,
      if fb then "Yes" else "No"] : List String).head? == some S)
      = (sender == S) := rfl
  rw [rowsFor, dataRows_save file hwf, List.filter_append, List.length_append]
  cases hb : sender == S with
  | false => simp [rowsFor, List.filter_cons, hrow, hb]
  | true => simp [rowsFor, List.filter_cons, hrow, hb]

/-- The per-step bookkeeping facts that make reply-once work, stated of a
transition from state `st` to state `st2` that emitted the sends `evs`:
the ledger file never becomes an existing headerless file, the in-memory
set only grows, a sender already in the set receives no send, at most one
send per sender happens, a sent sender lands in the set, and ledger rows
grow by exactly the sends. -/
def Advance (S : String) (st st2 : LoopState) (evs : List SendEvent) : Prop :=
  (st.csvFile ≠ some [] → st2.csvFile ≠ some [])
  ∧ (S ∈ st.replied → S ∈ st2.replied)
  ∧ (S ∈ st.replied → sendsTo S evs = 0)
  ∧ sendsTo S evs ≤ 1
  ∧ (1 ≤ sendsTo S evs → S ∈ st2.replied)
  ∧ (st.csvFile ≠ some [] →
      rowsFor S st2.csvFile = rowsFor S st.csvFile + sendsTo S evs)

lemma advance_id (S : String) (st : LoopState) : Advance S st st [] := by
  refine ⟨fun h => h, fun h => h, fun _ => rfl, by simp [sendsTo], ?_, ?_⟩
  · intro h; simp [sendsTo] at h
  · intro _; simp [sendsTo]

lemma advance_comp {S : String} {st st₁ st₂ : LoopState}
    {evs₁ evs₂ : List SendEvent}
    (h : Advance S st st₁ evs₁) (g : Advance S st₁ st₂ evs₂) :
    Advance S st st₂ (evs₁ ++ evs₂) := by
  obtain ⟨h1, h2, h3, h4, h5, h6⟩ := h
  obtain ⟨g1, g2, g3, g4, g5, g6⟩ := g
  refine ⟨fun hw => g1 (h1 hw), fun hm => g2 (h2 hm), ?_, ?_, ?_, ?_⟩
  · intro hm
    rw [sendsTo_append, h3 hm, g3 (h2 hm)]
  · rw [sendsTo_append]
    rcases Nat.eq_zero_or_pos (sendsTo S evs₁) with hz | hpos
    · rw [hz]; simpa using g4
    · have hzero := g3 (h5 hpos)
      omega
  · intro hsum
    rw [sendsTo_append] at hsum
    rcases Nat.eq_zero_or_pos (sendsTo S evs₂) with hz | hpos
    · exact g2 (h5 (by omega))
    · exact g5 hpos
  · intro hw
    rw [sendsTo_append, g6 (h1 hw), h6 hw]
    omega

/-- One candidate's processing advances the reply-once bookkeeping. -/
lemma processCandidate_advance (cfg : Config) (pa : String → String)
    (st : LoopState) (c : Candidate) (S : String) (hro : cfg.replyOnce = true) :
    Advance S st (processCandidate cfg pa st c).1
      (processCandidate cfg pa st c).2.1 := by
  cases hs : get_sender pa c.msg with
  | none => rw [processCandidate_none cfg pa st c hs]; exact advance_id S st
  | some sender =>
    cases hsk : (strIsEmpty sender || (cfg.replyOnce && st.replied.contains sender) ||
        sender == cfg.myEmail) with
    | true =>
      rw [processCandidate_skip cfg pa st c sender hs hsk]
      exact advance_id S st
    | false =>
      cases hsend : c.sendOk with
      | false =>
        rw [processCandidate_sendFail cfg pa st c sender hs hsk hsend]
        exact advance_id S st
      | true =>
        rw [processCandidate_sent cfg pa st c sender hs hsk hsend]
        have hnotin : sender ∉ st.replied := by
          have hco : st.replied.contains sender = false := by
            rcases Bool.or_eq_false_iff.mp hsk with ⟨hl, _⟩
            rcases Bool.or_eq_false_iff.mp hl with ⟨_, hand⟩
            rcases Bool.and_eq_false_iff.mp hand with hro' | hcontains
            · rw [hro] at hro'; exact absurd hro' (by simp)
            · exact hcontains
          simpa using hco
        refine ⟨?_, ?_, ?_, ?_, ?_, ?_⟩
        · intro _
          exact save_ne_emptyFile st.csvFile sender (c.character.name.getD "")
            (strOptFalsy (generate_ai_reply c.completion)) c.ts
        · intro hm
          exact List.mem_cons_of_mem sender hm
        · intro hm
          have hne : sender ≠ S := fun h => hnotin (h ▸ hm)
          rw [sendsTo_singleton]
          simp [show (sender == S) = false by simpa using hne]
        · rw [sendsTo_singleton]
          cases sender == S <;> simp
        · intro hpos
          rw [sendsTo_singleton] at hpos
          cases hb : sender == S with
          | false => rw [hb] at hpos; simp at hpos
          | true =>
            have : sender = S := by simpa using hb
            exact this ▸ List.mem_cons_self sender st.replied
        · intro hw
          rw [sendsTo_singleton]
          show rowsFor S (save_replied_sender st.csvFile sender
            (c.character.name.getD "")
            (strOptFalsy (generate_ai_reply c.completion)) c.ts) = _
          rw [rowsFor_save S st.csvFile hw]

/-- A whole candidate list advances the reply-once bookkeeping. -/
lemma processMessages_advance (cfg : Config) (pa : String → String) (S : String)
    (hro : cfg.replyOnce = true) :
    ∀ (cands : List Candidate) (st : LoopState),
      Advance S st (processMessages cfg pa st cands).1
        (processMessages cfg pa st cands).2.1 := by
  intro cands
  induction cands with
  | nil => intro st; exact advance_id S st
  | cons c rest ih =>
    intro st
    have hc := processCandidate_advance cfg pa st c S hro
    cases habort : (processCandidate cfg pa st c).2.2 with
    | true =>
      have heq := processCandidate_fail_inv cfg pa st c habort
      have hpm : processMessages cfg pa st (c :: rest) = (st, [], true) := by
        simp only [processMessages, heq]
        rfl
      rw [hpm]
      exact advance_id S st
    | false =>
      have hpm : processMessages cfg pa st (c :: rest)
          = ((processMessages cfg pa (processCandidate cfg pa st c).1 rest).1,
             (processCandidate cfg pa st c).2.1
               ++ (processMessages cfg pa (processCandidate cfg pa st c).1 rest).2.1,
             (processMessages cfg pa (processCandidate cfg pa st c).1 rest).2.2) := by
        simp only [processMessages, habort]
        rfl
      rw [hpm]
      exact advance_comp hc (ih (processCandidate cfg pa st c).1)

/-- A whole run of iterations advances the reply-once bookkeeping. -/
lemma runLoop_advance (cfg : Config) (pa : String → String) (S : String)
    (hro : cfg.replyOnce = true) :
    ∀ (qs : List QueryResult) (st : LoopState),
      Advance S st (runLoop cfg pa st qs).1 (runLoop cfg pa st qs).2 := by
  intro qs
  induction qs with
  | nil => intro st; exact advance_id S st
  | cons q qs ih =>
    intro st
    have hq : Advance S st (runIteration cfg pa st q).1
        (runIteration cfg pa st q).2.1 := by
      cases q with
      | fail => exact advance_id S st
      | ok cands => exact processMessages_advance cfg pa S hro cands st
    have hrl : runLoop cfg pa st (q :: qs)
        = ((runLoop cfg pa (runIteration cfg pa st q).1 qs).1,
           (runIteration cfg pa st q).2.1
             ++ (runLoop cfg pa (runIteration cfg pa st q).1 qs).2) := by
      simp only [runLoop]
    rw [hrl]
    exact advance_comp hq (ih (runIteration cfg pa st q).1)

/-- The restart-level bookkeeping, stated of a transition from ledger file
`csv` to file `csv2` that emitted the sends `evs`: rows grow by the sends,
and a sender with a durable row receives no further send. -/
def CsvAdvance (S : String) (csv csv2 : Option Csv)
    (evs : List SendEvent) : Prop :=
  (csv ≠ some [] → csv2 ≠ some [])
  ∧ (csv ≠ some [] → rowsFor S csv2 = rowsFor S csv + sendsTo S evs)
  ∧ (csv ≠ some [] → sendsTo S evs ≤ if 1 ≤ rowsFor S csv then 0 else 1)

lemma runFromCsv_csvAdvance (cfg : Config) (pa : String → String) (S : String)
    (hro : cfg.replyOnce = true) (csv : Option Csv) (qs : List QueryResult) :
    CsvAdvance S csv (runFromCsv cfg pa csv qs).1 (runFromCsv cfg pa csv qs).2 := by
  have h := runLoop_advance cfg pa S hro qs
    { replied := load_replied_senders csv, csvFile := csv }
  obtain ⟨h1, h2, h3, h4, h5, h6⟩ := h
  refine ⟨fun hw => h1 hw, fun hw => h6 hw, ?_⟩
  intro hw
  by_cases hmem : 1 ≤ rowsFor S csv
  · have hm : S ∈ load_replied_senders csv := (mem_load_iff S csv).mpr hmem
    rw [if_pos hmem]
    exact Nat.le_of_eq (h3 hm)
  · rw [if_neg hmem]
    exact h4

lemma csvAdvance_id (S : String) (csv : Option Csv) :
    CsvAdvance S csv csv [] := by
  refine ⟨fun h => h, fun _ => by simp [sendsTo], fun _ => ?_⟩
  by_cases h : 1 ≤ rowsFor S csv
  · rw [if_pos h]; simp [sendsTo]
  · rw [if_neg h]; simp [sendsTo]

lemma csvAdvance_comp {S : String} {csv csv₁ csv₂ : Option Csv}
    {evs₁ evs₂ : List SendEvent}
    (h : CsvAdvance S csv csv₁ evs₁) (g : CsvAdvance S csv₁ csv₂ evs₂) :
    CsvAdvance S csv csv₂ (evs₁ ++ evs₂) := by
  obtain ⟨h1, h2, h3⟩ := h
  obtain ⟨g1, g2, g3⟩ := g
  refine ⟨fun hw => g1 (h1 hw), ?_, ?_⟩
  · intro hw
    rw [sendsTo_append, g2 (h1 hw), h2 hw]
    omega
  · intro hw
    rw [sendsTo_append]
    have hr := h2 hw
    have hb₁ := h3 hw
    have hb₂ := g3 (h1 hw)
    by_cases hge : 1 ≤ rowsFor S csv
    · rw [if_pos hge]
      rw [if_pos hge] at hb₁
      have hge₁ : 1 ≤ rowsFor S csv₁ := by omega
      rw [if_pos hge₁] at hb₂
      omega
    · rw [if_neg hge]
      rw [if_neg hge] at hb₁
      rcases Nat.eq_zero_or_pos (sendsTo S evs₁) with hz | hpos
      · have hlt : ¬ 1 ≤ rowsFor S csv₁ := by omega
        rw [if_neg hlt] at hb₂
        omega
      · have hge₁ : 1 ≤ rowsFor S csv₁ := by omega
        rw [if_pos hge₁] at hb₂
        omega

lemma runRestarts_csvAdvance (cfg : Config) (pa : String → String) (S : String)
    (hro : cfg.replyOnce = true) :
    ∀ (runs : List (List QueryResult)) (csv : Option Csv),
      CsvAdvance S csv (runRestarts cfg pa csv runs).1
        (runRestarts cfg pa csv runs).2 := by
  intro runs
  induction runs with
  | nil => intro csv; exact csvAdvance_id S csv
  | cons qs runs ih =>
    intro csv
    have hr : runRestarts cfg pa csv (qs :: runs)
        = ((runRestarts cfg pa (runFromCsv cfg pa csv qs).1 runs).1,
           (runFromCsv cfg pa csv qs).2
             ++ (runRestarts cfg pa (runFromCsv cfg pa csv qs).1 runs).2) := by
      simp only [runRestarts]
    rw [hr]
    exact csvAdvance_comp (runFromCsv_csvAdvance cfg pa S hro csv qs)
      (ih (runFromCsv cfg pa csv qs).1)

/-- C1 (confirmed): with reply-once enabled, over any sequence of process
lifetimes that starts with an absent ledger file — each restart reloading
the set from the durable CSV — every sender receives at most one reply
ever, and at most one ledger data row for that sender exists at the end.
The in-memory set is updated immediately after each successful send
(`processCandidate_sent`), so later candidates of the same iteration are
filtered; membership is checked before any generation work in
`processCandidate`. -/
theorem replyOnce_at_most_one (cfg : Config) (pa : String → String)
    (hro : cfg.replyOnce = true) (runs : List (List QueryResult)) (S : String) :
    sendsTo S (runRestarts cfg pa none runs).2 ≤ 1
    ∧ rowsFor S (runRestarts cfg pa none runs).1 ≤ 1 := by
  obtain ⟨hwf, hrows, hbound⟩ := runRestarts_csvAdvance cfg pa S hro runs none
  have h0 : rowsFor S (none : Option Csv) = 0 := rfl
  have hb := hbound (by simp)
  have hr := hrows (by simp)
  rw [h0] at hb hr
  have hb2 : sendsTo S (runRestarts cfg pa none runs).2 ≤ 1 := by simpa using hb
  exact ⟨hb2, by omega⟩

/-- Witness for C1: two lifetimes, the first with two candidates from the
same sender in one iteration, the second (after reload) with another
candidate from that sender; the sender is replied to once in total and one
ledger row exists. -/
theorem replyOnce_at_most_one_witness :
    cfgEx.replyOnce = true
    ∧ (sendsTo "bob@x.com"
        (runRestarts cfgEx id none
          [[QueryResult.ok [candErrEx, candOkEx]], [QueryResult.ok [candOkEx]]]).2 ≤ 1
      ∧ rowsFor "bob@x.com"
        (runRestarts cfgEx id none
          [[QueryResult.ok [candErrEx, candOkEx]], [QueryResult.ok [candOkEx]]]).1 ≤ 1) :=
  ⟨rfl, replyOnce_at_most_one cfgEx id rfl
    [[QueryResult.ok [candErrEx, candOkEx]], [QueryResult.ok [candOkEx]]] "bob@x.com"⟩

/-! ## Loop machine claims C2, C8, C9 -/

/-- A schedule whose queries always succeed with no messages. -/
def schedEx : Nat → QueryResult := fun _ => QueryResult.ok []

/-- A schedule whose queries always raise. -/
def schedFailEx : Nat → QueryResult := fun _ => QueryResult.fail

/-- Machine state mid-iteration: a failing-send candidate followed by a
healthy candidate. -/
def s2Ex : MState :=
  { phase := Phase.processing [candFailEx, candOkEx], iterIdx := 0,
    ledger := stEx, events := [] }

/-- Machine state at an iteration boundary. -/
def s8Ex : MState :=
  { phase := Phase.boundary, iterIdx := 0, ledger := stEx, events := [] }

/-- Machine state inside the responsive sleep with five ticks left. -/
def s9Ex : MState :=
  { phase := Phase.sleeping 5, iterIdx := 0, ledger := stEx, events := [] }

/-- Machine state about to process a healthy candidate. -/
def s9bEx : MState :=
  { phase := Phase.processing [candOkEx], iterIdx := 0, ledger := stEx,
    events := [] }

/-- C2 (amended): when a candidate's Gmail send raises, no ledger record
is written for it (neither the in-memory set nor the CSV changes) and the
exception is caught at the iteration level (where it is logged as a
runtime error); but the remaining candidates of the same iteration are
dropped — the machine moves to the fixed five-second error delay and then
to the next iteration boundary, continuing the process, rather than
continuing with the next candidate of the same iteration. -/
theorem sendFailure_no_record_iteration_aborts (cfg : Config)
    (pa : String → String) (schedule : Nat → QueryResult) (flag flag2 : Bool)
    (s : MState) (c : Candidate) (rest : List Candidate)
    (hph : s.phase = Phase.processing (c :: rest))
    (hfail : (processCandidate cfg pa s.ledger c).2.2 = true) :
    (step cfg pa schedule flag s).phase = Phase.errorSleeping
    ∧ (step cfg pa schedule flag s).ledger = s.ledger
    ∧ (step cfg pa schedule flag s).events = s.events
    ∧ (step cfg pa schedule flag2 (step cfg pa schedule flag s)).phase
        = Phase.boundary := by
  have heq := processCandidate_fail_inv cfg pa s.ledger c hfail
  have h1 : step cfg pa schedule flag s
      = { s with phase := Phase.errorSleeping } := by
    simp [step, hph, heq]
  rw [h1]
  exact ⟨rfl, rfl, rfl, rfl⟩

/-- Witness for C2 at a concrete failing-send candidate. -/
theorem sendFailure_no_record_iteration_aborts_witness :
    (processCandidate cfgEx id s2Ex.ledger candFailEx).2.2 = true
    ∧ ((step cfgEx id schedEx false s2Ex).phase = Phase.errorSleeping
      ∧ (step cfgEx id schedEx false s2Ex).ledger = s2Ex.ledger
      ∧ (step cfgEx id schedEx false s2Ex).events = s2Ex.events
      ∧ (step cfgEx id schedEx true (step cfgEx id schedEx false s2Ex)).phase
          = Phase.boundary) :=
  ⟨by decide, sendFailure_no_record_iteration_aborts cfgEx id schedEx false true
    s2Ex candFailEx [candOkEx] rfl (by decide)⟩

/-- C2 counterexample: the first candidate's send raises while a second,
healthy candidate (fresh and with a succeeding send) is still pending; the
iteration ends at once — the machine is in the error delay, the event log
is still empty, and the next step is the iteration boundary — so the
remaining candidate of the same iteration was never processed, contrary to
the claim that the loop continues with it. -/
theorem sendFailure_drops_rest_cex :
    (step cfgEx id schedEx false s2Ex).phase = Phase.errorSleeping
    ∧ (step cfgEx id schedEx false s2Ex).events = []
    ∧ (step cfgEx id schedEx false (step cfgEx id schedEx false s2Ex)).phase
        = Phase.boundary
    ∧ candOkEx.sendOk = true := by
  exact ⟨by decide, by decide, by decide, rfl⟩

/-- C8 (amended): a failing unread-message query raises into the
iteration-level handler: it is caught and logged, no candidate is
processed and the ledger and event log are unchanged, and the loop
survives into the next iteration — but it proceeds through the fixed
five-second uninterruptible error delay, not through the Sleeping phase
(the tick-interruptible configured-interval sleep). -/
theorem queryFailure_handled (cfg : Config) (pa : String → String)
    (schedule : Nat → QueryResult) (flag2 : Bool) (s : MState)
    (hph : s.phase = Phase.boundary)
    (hq : schedule s.iterIdx = QueryResult.fail) :
    (step cfg pa schedule false s).phase = Phase.errorSleeping
    ∧ (step cfg pa schedule false s).ledger = s.ledger
    ∧ (step cfg pa schedule false s).events = s.events
    ∧ (step cfg pa schedule flag2 (step cfg pa schedule false s)).phase
        = Phase.boundary := by
  have h1 : step cfg pa schedule false s
      = { s with phase := Phase.errorSleeping, iterIdx := s.iterIdx + 1 } := by
    simp [step, hph, hq]
  rw [h1]
  exact ⟨rfl, rfl, rfl, rfl⟩

/-- Witness for C8 at a concrete failing query. -/
theorem queryFailure_handled_witness :
    (step cfgEx id schedFailEx false s8Ex).phase = Phase.errorSleeping
    ∧ (step cfgEx id schedFailEx false s8Ex).ledger = s8Ex.ledger
    ∧ (step cfgEx id schedFailEx false s8Ex).events = s8Ex.events
    ∧ (step cfgEx id schedFailEx true (step cfgEx id schedFailEx false s8Ex)).phase
        = Phase.boundary :=
  queryFailure_handled cfgEx id schedFailEx true s8Ex rfl rfl

/-- C8 counterexample: after a failing query the machine is in the
uninterruptible error delay, which is not the Sleeping phase of the
configured interval that the claim names. -/
theorem queryFailure_not_sleeping_cex :
    (step cfgEx id schedFailEx false s8Ex).phase = Phase.errorSleeping
    ∧ ((step cfgEx id schedFailEx false s8Ex).phase
        == Phase.sleeping cfgEx.checkInterval) = false := by
  exact ⟨by decide, by decide⟩

/-- C9 (confirmed): the shutdown flag is sampled before every one-second
sleep tick, so once shutdown is requested a sleeping machine performs no
further sleep tick: the next checkpoint exits the sleep to the boundary
and the boundary check reaches the stopped state — at most the one
in-flight second elapses, never the rest of the configured interval. A
candidate being processed is a single transition that never reads the
flag: the step from a processing phase is identical for both flag values,
so an in-flight candidate's send and record complete before any
checkpoint observes the flag. -/
theorem shutdown_latency (cfg : Config) (pa : String → String)
    (schedule : Nat → QueryResult) (s : MState) :
    (∀ n, s.phase = Phase.sleeping n →
      (step cfg pa schedule true (step cfg pa schedule true s)).phase
        = Phase.stopped)
    ∧ (∀ c rest, s.phase = Phase.processing (c :: rest) →
      step cfg pa schedule true s = step cfg pa schedule false s) := by
  constructor
  · intro n h
    have h1 : step cfg pa schedule true s
        = { s with phase := Phase.boundary } := by
      cases n with
      | zero => simp [step, h]
      | succ m => simp [step, h]
    rw [h1]
    rfl
  · intro c rest h
    simp [step, h]

/-- Witness for C9: from a concrete sleeping state with the flag set the
machine stops within two checkpoints, and a concrete processing step is
flag-independent. -/
theorem shutdown_latency_witness :
    (step cfgEx id schedEx true (step cfgEx id schedEx true s9Ex)).phase
        = Phase.stopped
    ∧ step cfgEx id schedEx true s9bEx = step cfgEx id schedEx false s9bEx :=
  ⟨(shutdown_latency cfgEx id schedEx s9Ex).1 5 rfl,
   (shutdown_latency cfgEx id schedEx s9bEx).2 candOkEx [] rfl⟩

end GmailBot
